import Mathlib

/-!
Verification of the shape/parameter inference and structural validation engine
of the MNIST network-builder frontend.

The definitions below are a shallow embedding of the JavaScript source:
* `calculateLayerDimensions` from `src/frontend/src/components/NetworkBuilder.js`
  (the full version with Conv1x1 / BatchNorm branches),
* `validateLayerOrder` and the index-based drop handler from the same file,
* the append-time drop validation from `src/frontend/src/App.js`,
* `validateNetwork` from `src/frontend/src/components/TrainingConfig.js`,
* `handleDragEnd` (reorder) from the drag-and-drop `NetworkBuilder` variant
  (`src/unnamed/part_003`).

JavaScript numbers are modelled by `JsNum`: an exact rational together with
the three non-finite values `Infinity`, `-Infinity` and `NaN`.  All numeric
values occurring in these computations are small integers or rationals, so
the exact-rational model coincides with IEEE double behaviour on every
operation performed by the code (including division by zero, which produces
an infinity or `NaN`, and `Math.floor`, which fixes non-finite values).
The `paramBreakdown` presentation string of the source is not modelled; it is
derived display text and no property below mentions it.
-/

/-- A JavaScript number: an exact rational, `Infinity`, `-Infinity` or `NaN`. -/
inductive JsNum where
  | num (q : ℚ)
  | posInf
  | negInf
  | nan
deriving DecidableEq

namespace JsNum

/-- JavaScript addition. -/
def add : JsNum → JsNum → JsNum
  | nan, _ => nan
  | _, nan => nan
  | posInf, negInf => nan
  | negInf, posInf => nan
  | posInf, _ => posInf
  | _, posInf => posInf
  | negInf, _ => negInf
  | _, negInf => negInf
  | num a, num b => num (a + b)

/-- JavaScript subtraction. -/
def sub : JsNum → JsNum → JsNum
  | nan, _ => nan
  | _, nan => nan
  | posInf, posInf => nan
  | negInf, negInf => nan
  | posInf, _ => posInf
  | _, negInf => posInf
  | negInf, _ => negInf
  | _, posInf => negInf
  | num a, num b => num (a - b)

/-- JavaScript multiplication (`0 * Infinity` is `NaN`). -/
def mul : JsNum → JsNum → JsNum
  | nan, _ => nan
  | _, nan => nan
  | num a, num b => num (a * b)
  | num a, posInf => if 0 < a then posInf else if a < 0 then negInf else nan
  | posInf, num a => if 0 < a then posInf else if a < 0 then negInf else nan
  | num a, negInf => if 0 < a then negInf else if a < 0 then posInf else nan
  | negInf, num a => if 0 < a then negInf else if a < 0 then posInf else nan
  | posInf, posInf => posInf
  | negInf, negInf => posInf
  | posInf, negInf => negInf
  | negInf, posInf => negInf

/-- JavaScript division (`x / 0` is a signed infinity for `x ≠ 0`, `NaN` for `x = 0`). -/
def div : JsNum → JsNum → JsNum
  | nan, _ => nan
  | _, nan => nan
  | num a, num b =>
      if b = 0 then (if 0 < a then posInf else if a < 0 then negInf else nan)
      else num (a / b)
  | num _, posInf => num 0
  | num _, negInf => num 0
  | posInf, num b => if 0 ≤ b then posInf else negInf
  | negInf, num b => if 0 ≤ b then negInf else posInf
  | posInf, posInf => nan
  | posInf, negInf => nan
  | negInf, posInf => nan
  | negInf, negInf => nan

/-- JavaScript `Math.floor`; non-finite values are returned unchanged. -/
def floor : JsNum → JsNum
  | num q => num (Rat.floor q : ℤ)
  | posInf => posInf
  | negInf => negInf
  | nan => nan

/-- JavaScript `>` comparison as a boolean (`NaN` compares false). -/
def gtb : JsNum → JsNum → Bool
  | num a, num b => decide (b < a)
  | nan, _ => false
  | _, nan => false
  | posInf, posInf => false
  | posInf, _ => true
  | negInf, _ => false
  | num _, posInf => false
  | num _, negInf => true

end JsNum

/-- The closed set of layer kinds offered by the palette (`layerTypes` in
`src/frontend/src/App.js`); names follow the `type` strings of the source. -/
inductive LayerKind where
  | conv2d
  | conv1x1
  | batchNorm
  | maxPool
  | globalAvgPool
  | flatten
  | dropout
  | dense
deriving DecidableEq

/-- The numeric parameter record of a layer descriptor (`defaultParams` in the
source).  Each layer kind reads only its own fields; unused fields default
to `0`. -/
structure LayerParams where
  filters : ℚ := 0
  kernelSize : ℚ := 0
  stride : ℚ := 0
  padding : ℚ := 0
  poolSize : ℚ := 0
  rate : ℚ := 0
  units : ℚ := 0
deriving DecidableEq

/-- A layer descriptor: stable `id`, kind, and parameter record. -/
structure Layer where
  id : String
  type : LayerKind
  defaultParams : LayerParams
deriving DecidableEq

/-- The derived per-layer record produced by the shape inference engine
(`dimensions.push({input, output, params})` in the source). -/
structure LayerDims where
  input : List JsNum
  output : List JsNum
  params : JsNum
deriving DecidableEq

/-- The running state threaded through `calculateLayerDimensions`:
`inputChannels`, `currentHeight`, `currentWidth`. -/
structure InferState where
  inputChannels : JsNum
  currentHeight : JsNum
  currentWidth : JsNum
deriving DecidableEq

open JsNum in
/-- One iteration of the `layers.forEach` body of `calculateLayerDimensions`
(`src/frontend/src/components/NetworkBuilder.js`): produces the layer's
dimension record and the updated running state. -/
def stepLayer (s : InferState) (layer : Layer) : LayerDims × InferState :=
  let c := s.inputChannels
  let h := s.currentHeight
  let w := s.currentWidth
  match layer.type with
  | .conv2d =>
      let f := num layer.defaultParams.filters
      let k := num layer.defaultParams.kernelSize
      let st := num layer.defaultParams.stride
      let p := num layer.defaultParams.padding
      let oh := (((h.add ((num 2).mul p)).sub k).div st |>.add (num 1)).floor
      let ow := (((w.add ((num 2).mul p)).sub k).div st |>.add (num 1)).floor
      let kernelParams := ((k.mul k).mul c).mul f
      let prms := kernelParams.add f
      (⟨[c, h, w], [f, oh, ow], prms⟩, ⟨f, oh, ow⟩)
  | .conv1x1 =>
      let f := num layer.defaultParams.filters
      let kernelParams := (((num 1).mul (num 1)).mul c).mul f
      let prms := kernelParams.add f
      (⟨[c, h, w], [f, h, w], prms⟩, ⟨f, h, w⟩)
  | .batchNorm =>
      (⟨[c, h, w], [c, h, w], (num 4).mul c⟩, ⟨c, h, w⟩)
  | .maxPool =>
      let st := num layer.defaultParams.stride
      let oh := (h.div st).floor
      let ow := (w.div st).floor
      (⟨[c, h, w], [c, oh, ow], num 0⟩, ⟨c, oh, ow⟩)
  | .globalAvgPool =>
      (⟨[c, h, w], [c, num 1, num 1], num 0⟩, ⟨c, num 1, num 1⟩)
  | .flatten =>
      let prod := (c.mul h).mul w
      (⟨[c, h, w], [prod], num 0⟩, ⟨prod, num 1, num 1⟩)
  | .dropout =>
      (⟨[c, h, w], [c, h, w], num 0⟩, ⟨c, h, w⟩)
  | .dense =>
      let u := num layer.defaultParams.units
      if h.gtb (num 1) || w.gtb (num 1) then
        let inputSize := (c.mul h).mul w
        let prms := (inputSize.mul u).add u
        (⟨[inputSize], [u], prms⟩, ⟨u, num 1, num 1⟩)
      else
        let prms := (c.mul u).add u
        (⟨[c, h, w], [u], prms⟩, ⟨u, num 1, num 1⟩)

/-- The fold of `stepLayer` over the layer list. -/
def calcAux (s : InferState) : List Layer → List LayerDims
  | [] => []
  | l :: ls => (stepLayer s l).1 :: calcAux (stepLayer s l).2 ls

/-- `calculateLayerDimensions` from `src/frontend/src/components/NetworkBuilder.js`:
runs the per-layer transition starting from the hard-coded MNIST input
`inputChannels = 1`, `currentHeight = 28`, `currentWidth = 28`. -/
def calculateLayerDimensions (layers : List Layer) : List LayerDims :=
  calcAux ⟨JsNum.num 1, JsNum.num 28, JsNum.num 28⟩ layers

/-- `Rat.floor` (used by the executable model) agrees with the mathematical
floor `⌊·⌋` used in the specification statements. -/
lemma ratFloor_eq_intFloor (q : ℚ) : Rat.floor q = Int.floor q := by
  have h1 : ((Rat.floor q : ℤ) : ℚ) ≤ q := Rat.le_floor.mp le_rfl
  have h2 : q < ((Rat.floor q : ℤ) : ℚ) + 1 := by
    by_contra hc
    push_neg at hc
    have h3 : ((Rat.floor q + 1 : ℤ) : ℚ) ≤ q := by push_cast; linarith
    have h4 : Rat.floor q + 1 ≤ Rat.floor q := Rat.le_floor.mpr h3
    omega
  exact (Int.floor_eq_iff.mpr ⟨h1, h2⟩).symm

/-- Layer kinds for which `validateLayerOrder` forbids placement after a
`Fully Connected` layer (`Convolution 2D`, `Convolution 1x1`, `Max Pooling`,
`Global Average Pooling`). -/
def isSpatial4 : LayerKind → Bool
  | .conv2d | .conv1x1 | .maxPool | .globalAvgPool => true
  | _ => false

/-- The three spatial kinds checked by the append-time validation in
`src/frontend/src/App.js` (`conv2d`, `conv1x1`, `maxpool`). -/
def isSpatial3 : LayerKind → Bool
  | .conv2d | .conv1x1 | .maxPool => true
  | _ => false

/-- The two reducing kinds (`Flatten`, `Global Average Pooling`). -/
def isReducing : LayerKind → Bool
  | .flatten | .globalAvgPool => true
  | _ => false

/-- `Fully Connected`. -/
def isDense : LayerKind → Bool
  | .dense => true
  | _ => false

/-- Kinds allowed after a reducing layer by `validateLayerOrder`
(`Fully Connected` or `Dropout`). -/
def isDenseOrDropout : LayerKind → Bool
  | .dense | .dropout => true
  | _ => false

/-- The scanning loop of `validateLayerOrder`
(`src/frontend/src/components/NetworkBuilder.js`), with the two mutable
flags `hasSeenFC` and `hasSeenFlatten` made explicit. -/
def layerOrderScan (hasSeenFC hasSeenFlatten : Bool) : List Layer → Bool
  | [] => true
  | l :: ls =>
      if hasSeenFC && isSpatial4 l.type then false
      else if hasSeenFlatten && !(isDenseOrDropout l.type) then false
      else layerOrderScan (hasSeenFC || isDense l.type)
        (hasSeenFlatten || isReducing l.type) ls

/-- `validateLayerOrder(newLayers)` from
`src/frontend/src/components/NetworkBuilder.js`. -/
def validateLayerOrder (newLayers : List Layer) : Bool :=
  layerOrderScan false false newLayers

/-- JavaScript `array.splice(index, 0, a)` as a pure function: insert `a` at
position `index`, clamping an out-of-range index to the end. -/
def spliceInsert {α : Type} : List α → ℕ → α → List α
  | ls, 0, a => a :: ls
  | [], _ + 1, a => [a]
  | l :: ls, i + 1, a => l :: spliceInsert ls i a

/-- The index-targeted drop handler of
`src/frontend/src/components/NetworkBuilder.js`: splice the candidate into
the current list at the drop index and accept iff `validateLayerOrder`
passes on the whole resulting list. -/
def canInsertAt (layers : List Layer) (index : ℕ) (cand : Layer) : Bool :=
  validateLayerOrder (spliceInsert layers index cand)

/-- The append-time drop validation of `src/frontend/src/App.js`
(`handleDrop`): the `canAdd` flag as a function of the current layers and
the candidate kind.  For a reducing candidate it requires that no reducing
layer exists yet, that some `conv2d`/`conv1x1`/`maxpool` layer exists, and
that no `Fully Connected` layer exists; a `conv2d`/`conv1x1`/`maxpool`
candidate is rejected when a `Fully Connected` layer exists. -/
def canAddAppend (layers : List Layer) (k : LayerKind) : Bool :=
  let c1 :=
    if isReducing k then
      !(layers.any fun l => isReducing l.type) &&
      (layers.any fun l => isSpatial3 l.type) &&
      !(layers.any fun l => isDense l.type)
    else true
  let c2 :=
    if isSpatial3 k then !(layers.any fun l => isDense l.type) else true
  c1 && c2

/-- The rejection message of `validateNetwork` for a spatial layer after a
`Fully Connected` layer. -/
def convPoolMsg : String :=
  "Convolutional and Pooling layers must come before Fully Connected layers"

/-- The rejection message of `validateNetwork` for a wrong final layer; it
names the MNIST class-count requirement (10 units). -/
def lastLayerMsg : String :=
  "The last layer must be a Fully Connected layer with 10 units for MNIST classification"

/-- The ordering loop of `validateNetwork`
(`src/frontend/src/components/TrainingConfig.js`): once a `Fully Connected`
layer has been seen, a later `Convolution 2D` or `Max Pooling` layer is an
error.  (`Convolution 1x1` and `Batch Normalization` are deliberately not
re-examined here.) -/
def checkOrderScan (hasSeenFC : Bool) : List Layer → Option String
  | [] => none
  | l :: ls =>
      if hasSeenFC && (l.type = LayerKind.conv2d || l.type = LayerKind.maxPool) then
        some convPoolMsg
      else checkOrderScan (hasSeenFC || isDense l.type) ls

/-- `validateNetwork()` from `src/frontend/src/components/TrainingConfig.js`:
`none` means the architecture is accepted for training, `some msg` is the
human-readable rejection reason. -/
def validateNetwork (networkLayers : List Layer) : Option String :=
  if networkLayers.length = 0 then
    some "Please add at least one layer to the network"
  else
    match checkOrderScan false networkLayers with
    | some m => some m
    | none =>
        match networkLayers.getLast? with
        | none => none
        | some lastLayer =>
            if lastLayer.type = LayerKind.dense ∧ lastLayer.defaultParams.units = 10 then
              none
            else some lastLayerMsg

/-- JavaScript `array.splice(i, 1)` as a pure function: remove the element
at position `i` (no change when `i` is out of range). -/
def removeIdx {α : Type} : List α → ℕ → List α
  | [], _ => []
  | _ :: ls, 0 => ls
  | l :: ls, i + 1 => l :: removeIdx ls i

/-- JavaScript `id.split('-')[0]`. -/
def idStem (s : String) : String :=
  (s.splitOn "-").headD ""


/-- `handleDragEnd` from the drag-and-drop `NetworkBuilder`
(`src/unnamed/part_003`): remove the descriptor at `src`, re-insert it at
`dst`, then regenerate every descriptor's `id` as
`` `${id.split('-')[0]}-${Date.now()}-${index}` `` (the current time is the
explicit parameter `now`). -/
def handleDragEnd (layers : List Layer) (src dst : ℕ) (now : ℕ) : List Layer :=
  match layers.get? src with
  | none => layers
  | some item =>
      let reordered := spliceInsert (removeIdx layers src) dst item
      reordered.enum.map fun p =>
        { p.snd with id := idStem p.snd.id ++ "-" ++ toString now ++ "-" ++ toString p.fst }


/-! ### Concrete layer descriptors (palette templates from `src/frontend/src/App.js`) -/

/-- The `conv2d` palette template: `filters 32, kernelSize 3, stride 1, padding 1`. -/
def conv2dDefault : Layer :=
  ⟨"conv2d-1", .conv2d, { filters := 32, kernelSize := 3, stride := 1, padding := 1 }⟩

/-- The `conv1x1` palette template: `filters 32`. -/
def conv1x1Default : Layer := ⟨"conv1x1-1", .conv1x1, { filters := 32 }⟩

/-- The `batchnorm` palette template (its `momentum`/`epsilon` fields are never
read by the engine). -/
def batchNormDefault : Layer := ⟨"batchnorm-1", .batchNorm, {}⟩

/-- The `maxpool` palette template: `poolSize 2, stride 2`. -/
def maxPoolDefault : Layer := ⟨"maxpool-1", .maxPool, { poolSize := 2, stride := 2 }⟩

/-- The `globalavgpool` palette template. -/
def gapDefault : Layer := ⟨"globalavgpool-1", .globalAvgPool, {}⟩

/-- The `flatten` palette template. -/
def flattenDefault : Layer := ⟨"flatten-1", .flatten, {}⟩

/-- The `dropout` palette template: `rate 0.25`. -/
def dropoutDefault : Layer := ⟨"dropout-1", .dropout, { rate := 1 / 4 }⟩

/-- The `dense` palette template: `units 10`. -/
def dense10 : Layer := ⟨"dense-1", .dense, { units := 10 }⟩

/-- A `Fully Connected` layer with 128 units. -/
def dense128 : Layer := ⟨"dense-2", .dense, { units := 128 }⟩

/-- A `Fully Connected` layer with 5 units (wrong class count). -/
def dense5 : Layer := ⟨"dense-3", .dense, { units := 5 }⟩

/-- A Conv2D whose kernel exceeds the padded input (`kernelSize 30` on 28×28). -/
def convK30 : Layer :=
  ⟨"conv2d-2", .conv2d, { filters := 32, kernelSize := 30, stride := 1, padding := 0 }⟩

/-- A Conv2D with `stride 0`. -/
def convS0 : Layer :=
  ⟨"conv2d-3", .conv2d, { filters := 32, kernelSize := 3, stride := 0, padding := 1 }⟩

/-- A MaxPool with `stride 0`. -/
def maxPoolS0 : Layer := ⟨"maxpool-2", .maxPool, { poolSize := 2, stride := 0 }⟩

/-! ### C1: Conv2D shape and parameter-count rule -/

/-- C1: for every incoming shape `[C,H,W]`, the engine maps a Conv2D layer with
parameters `(filters, kernelSize, stride, padding)` to output
`[filters, ⌊(H + 2·padding − kernelSize)/stride + 1⌋, ⌊(W + 2·padding − kernelSize)/stride + 1⌋]`
with `paramCount = kernelSize²·C·filters + filters`; in particular the default
Conv2D on the MNIST input `[1,28,28]` yields output `[32,28,28]` and
`paramCount = 320`. -/
theorem conv2d_shape_param_rule :
    (∀ (c h w f k s p : ℚ) (i : String), s ≠ 0 →
      stepLayer ⟨.num c, .num h, .num w⟩
          ⟨i, .conv2d, { filters := f, kernelSize := k, stride := s, padding := p }⟩ =
        (⟨[.num c, .num h, .num w],
          [.num f, .num ((⌊(h + 2 * p - k) / s + 1⌋ : ℤ) : ℚ),
            .num ((⌊(w + 2 * p - k) / s + 1⌋ : ℤ) : ℚ)],
          .num (k * k * c * f + f)⟩,
         ⟨.num f, .num ((⌊(h + 2 * p - k) / s + 1⌋ : ℤ) : ℚ),
          .num ((⌊(w + 2 * p - k) / s + 1⌋ : ℤ) : ℚ)⟩)) ∧
    calculateLayerDimensions [conv2dDefault] =
      [⟨[.num 1, .num 28, .num 28], [.num 32, .num 28, .num 28], .num 320⟩] := by
  constructor
  · intro c h w f k s p i hs
    simp only [stepLayer, JsNum.add, JsNum.mul, JsNum.sub, JsNum.div, JsNum.floor,
      if_neg hs, ratFloor_eq_intFloor]
  · with_unfolding_all rfl

/-- Witness for C1: the Conv2D rule applied at the concrete input `[1,28,28]`
with the default parameters, hypotheses discharged. -/
theorem conv2d_shape_param_rule_witness :
    stepLayer ⟨.num 1, .num 28, .num 28⟩ conv2dDefault =
      (⟨[.num 1, .num 28, .num 28], [.num 32, .num 28, .num 28], .num 320⟩,
       ⟨.num 32, .num 28, .num 28⟩) :=
  (conv2d_shape_param_rule.1 1 28 28 32 3 1 1 "conv2d-1" one_ne_zero).trans
    (by with_unfolding_all rfl)

/-! ### C7: MaxPool shape rule -/

/-- C7: for every incoming shape `[C,H,W]`, the engine maps a MaxPool layer
with parameters `(poolSize, stride)` to output `[C, ⌊H/stride⌋, ⌊W/stride⌋]`
with `paramCount = 0`; `poolSize` (universally quantified and absent from the
result) does not influence the output; in particular `[32,28,28]` with
`MaxPool{poolSize:2, stride:2}` yields `[32,14,14]` and `paramCount = 0`. -/
theorem maxPool_shape_rule :
    (∀ (c h w ps s : ℚ) (i : String), s ≠ 0 →
      stepLayer ⟨.num c, .num h, .num w⟩ ⟨i, .maxPool, { poolSize := ps, stride := s }⟩ =
        (⟨[.num c, .num h, .num w],
          [.num c, .num ((⌊h / s⌋ : ℤ) : ℚ), .num ((⌊w / s⌋ : ℤ) : ℚ)], .num 0⟩,
         ⟨.num c, .num ((⌊h / s⌋ : ℤ) : ℚ), .num ((⌊w / s⌋ : ℤ) : ℚ)⟩)) ∧
    calculateLayerDimensions [conv2dDefault, maxPoolDefault] =
      [⟨[.num 1, .num 28, .num 28], [.num 32, .num 28, .num 28], .num 320⟩,
       ⟨[.num 32, .num 28, .num 28], [.num 32, .num 14, .num 14], .num 0⟩] := by
  constructor
  · intro c h w ps s i hs
    simp only [stepLayer, JsNum.div, JsNum.floor, if_neg hs, ratFloor_eq_intFloor]
  · with_unfolding_all rfl

/-- Witness for C7: the MaxPool rule applied at the concrete shape `[32,28,28]`
with `poolSize 2, stride 2`, hypotheses discharged. -/
theorem maxPool_shape_rule_witness :
    stepLayer ⟨.num 32, .num 28, .num 28⟩ maxPoolDefault =
      (⟨[.num 32, .num 28, .num 28], [.num 32, .num 14, .num 14], .num 0⟩,
       ⟨.num 32, .num 14, .num 14⟩) :=
  (maxPool_shape_rule.1 32 28 28 2 2 "maxpool-1" two_ne_zero).trans
    (by with_unfolding_all rfl)

/-! ### C9: non-positive computed dimensions are neither clamped nor rejected -/

/-- C9: the engine does not clamp or reject non-positive computed dimensions:
a Conv2D whose kernel (30) exceeds the padded input (28) produces output
height/width `-1 ≤ 0`, the engine completes without any error channel, and the
invalid shape is threaded into the following MaxPool layer's dimensions. -/
theorem shape_underflow_unclamped :
    ∃ (ls : List Layer) (d0 d1 : LayerDims),
      calculateLayerDimensions ls = [d0, d1] ∧
      d0.output = [.num 32, .num (-1), .num (-1)] ∧
      d1.input = [.num 32, .num (-1), .num (-1)] ∧
      d1.output = [.num 32, .num (-1), .num (-1)] ∧
      (-1 : ℚ) ≤ 0 :=
  ⟨[convK30, maxPoolDefault],
   ⟨[.num 1, .num 28, .num 28], [.num 32, .num (-1), .num (-1)], .num 28832⟩,
   ⟨[.num 32, .num (-1), .num (-1)], [.num 32, .num (-1), .num (-1)], .num 0⟩,
   by with_unfolding_all rfl, rfl, rfl, rfl, by norm_num⟩

/-! ### C10: stride 0 — unguarded division by zero -/

/-- Counterexample to C10 as stated: the non-finite value produced by a
stride-0 Conv2D is *not* propagated into every later layer's dimensions — a
`Global Average Pooling` layer collapses the spatial extent, and the layer
after it (index 2 here) has entirely finite dimensions. -/
theorem stride_zero_not_every_later_layer :
    (calculateLayerDimensions [convS0, gapDefault, dropoutDefault]).get? 2 =
      some ⟨[.num 32, .num 1, .num 1], [.num 32, .num 1, .num 1], .num 0⟩ := by
  with_unfolding_all rfl

/-- C10 (amended): no validation inspects `stride`, so a stride-0 Conv2D or
MaxPool passes the append-time check, `validateLayerOrder`, and even
`validateNetwork`; the size formula divides by zero, yielding `Infinity`,
which is recorded in the layer's `outputShape` and propagated into later
layers' dimensions (until a reducing/Dense layer collapses the spatial
extent), with no error signalled anywhere. -/
theorem stride_zero_division_unguarded :
    canAddAppend [] .conv2d = true ∧
    validateLayerOrder [convS0] = true ∧
    validateNetwork [convS0, dense10] = none ∧
    calculateLayerDimensions [convS0, maxPoolDefault] =
      [⟨[.num 1, .num 28, .num 28], [.num 32, .posInf, .posInf], .num 320⟩,
       ⟨[.num 32, .posInf, .posInf], [.num 32, .posInf, .posInf], .num 0⟩] ∧
    calculateLayerDimensions [maxPoolS0] =
      [⟨[.num 1, .num 28, .num 28], [.num 1, .posInf, .posInf], .num 0⟩] := by
  refine ⟨rfl, rfl, ?_, ?_, ?_⟩ <;> with_unfolding_all rfl

/-! ### C4: the threading invariant -/

/-- For every non-dense layer, the reported `input` is exactly the incoming
state triple `[inputChannels, currentHeight, currentWidth]`. -/
lemma stepLayer_input_eq (s : InferState) (l : Layer) (h : l.type ≠ LayerKind.dense) :
    (stepLayer s l).1.input = [s.inputChannels, s.currentHeight, s.currentWidth] := by
  cases hl : l.type
  case dense => exact absurd hl h
  all_goals simp [stepLayer, hl]

/-- For every layer that is neither `Flatten` nor `Fully Connected`, the
reported `output` is exactly the outgoing state triple. -/
lemma stepLayer_output_eq (s : InferState) (l : Layer)
    (h1 : l.type ≠ LayerKind.flatten) (h2 : l.type ≠ LayerKind.dense) :
    (stepLayer s l).1.output =
      [(stepLayer s l).2.inputChannels, (stepLayer s l).2.currentHeight,
        (stepLayer s l).2.currentWidth] := by
  cases hl : l.type
  case flatten => exact absurd hl h1
  case dense => exact absurd hl h2
  all_goals simp [stepLayer, hl]

/-- Threading of `calcAux`, generalized over the starting state. -/
lemma calcAux_thread (i : ℕ) :
    ∀ (s : InferState) (layers : List Layer) (li lj : Layer) (di dj : LayerDims),
      layers[i]? = some li → layers[i + 1]? = some lj →
      (calcAux s layers)[i]? = some di → (calcAux s layers)[i + 1]? = some dj →
      li.type ≠ LayerKind.flatten → li.type ≠ LayerKind.dense →
      lj.type ≠ LayerKind.dense →
      di.output = dj.input := by
  induction i with
  | zero =>
      intro s layers li lj di dj h1 h2 h3 h4 hf hd1 hd2
      cases layers with
      | nil => simp at h1
      | cons l0 t =>
          cases t with
          | nil => simp at h2
          | cons l1 t2 =>
              simp [calcAux] at h1 h2 h3 h4
              subst h1 h2 h3 h4
              rw [stepLayer_output_eq s l0 hf hd1, stepLayer_input_eq _ l1 hd2]
  | succ n ih =>
      intro s layers li lj di dj h1 h2 h3 h4 hf hd1 hd2
      cases layers with
      | nil => simp at h1
      | cons l0 t =>
          simp [calcAux] at h1 h2 h3 h4
          exact ih (stepLayer s l0).2 t li lj di dj h1 h2 h3 h4 hf hd1 hd2

/-- Counterexample to C4 as stated: across a `Flatten` boundary the invariant
fails — the flatten layer reports the rank-1 output `[784]`, but the next
layer's reported input is the rank-3 state triple `[784, 1, 1]`. -/
theorem dims_threading_cex :
    calculateLayerDimensions [flattenDefault, dropoutDefault] =
      [⟨[.num 1, .num 28, .num 28], [.num 784], .num 0⟩,
       ⟨[.num 784, .num 1, .num 1], [.num 784, .num 1, .num 1], .num 0⟩] ∧
    ([JsNum.num 784] : List JsNum) ≠ [.num 784, .num 1, .num 1] := by
  constructor
  · with_unfolding_all rfl
  · simp

/-- C4 (amended): in the dimension list produced by the engine, the
`output` of layer `i` equals the `input` of layer `i+1` for every adjacent
pair in which layer `i` is neither `Flatten` nor `Fully Connected` and layer
`i+1` is not `Fully Connected`.  (Across a `Flatten`/`Dense` boundary the
engine reports a rank-1 output but carries the rank-3 state `[p, 1, 1]` into
the next layer's input, and a `Dense` consumer with a spatially non-trivial
input reports the flattened `[C·H·W]` instead of the previous output, so the
unrestricted claim fails; see the counterexample.) -/
theorem dims_threading_amended (layers : List Layer) (i : ℕ) (li lj : Layer)
    (di dj : LayerDims)
    (h1 : layers[i]? = some li) (h2 : layers[i + 1]? = some lj)
    (h3 : (calculateLayerDimensions layers)[i]? = some di)
    (h4 : (calculateLayerDimensions layers)[i + 1]? = some dj)
    (hf : li.type ≠ LayerKind.flatten) (hd1 : li.type ≠ LayerKind.dense)
    (hd2 : lj.type ≠ LayerKind.dense) :
    di.output = dj.input :=
  calcAux_thread i _ layers li lj di dj h1 h2 h3 h4 hf hd1 hd2

/-- Witness for the amended C4: the Conv2D→MaxPool pair of the default
architecture, hypotheses discharged at concrete values. -/
theorem dims_threading_amended_witness :
    (⟨[.num 1, .num 28, .num 28], [.num 32, .num 28, .num 28], .num 320⟩ : LayerDims).output =
      (⟨[.num 32, .num 28, .num 28], [.num 32, .num 14, .num 14], .num 0⟩ : LayerDims).input :=
  dims_threading_amended [conv2dDefault, maxPoolDefault] 0 conv2dDefault maxPoolDefault
    ⟨[.num 1, .num 28, .num 28], [.num 32, .num 28, .num 28], .num 320⟩
    ⟨[.num 32, .num 28, .num 28], [.num 32, .num 14, .num 14], .num 0⟩
    rfl rfl (by with_unfolding_all rfl) (by with_unfolding_all rfl)
    (by decide) (by decide) (by decide)


/-! ### C2: the submission-time validator -/

/-- Spec-side reading of the ordering rule: scanning front-to-back, no layer
of kind `Conv2D` or `MaxPool` appears after a `Fully Connected` layer. -/
def noConvPoolAfterDense (ls : List Layer) : Prop :=
  ∀ (i j : ℕ) (li lj : Layer), i < j → ls[i]? = some li → ls[j]? = some lj →
    li.type = LayerKind.dense →
    ¬(lj.type = LayerKind.conv2d ∨ lj.type = LayerKind.maxPool)

/-- Spec-side reading of the final-layer rule: the last layer is
`Fully Connected` with `units = 10` (the required class count). -/
def lastIsDense10 (ls : List Layer) : Prop :=
  ∃ l, ls.getLast? = some l ∧ l.type = LayerKind.dense ∧ l.defaultParams.units = 10

/-- With the `hasSeenFC` flag already set, the scan accepts iff no `Conv2D` or
`MaxPool` layer occurs anywhere in the remainder. -/
lemma checkOrderScan_true_none_iff (ls : List Layer) :
    checkOrderScan true ls = none ↔
      ∀ l ∈ ls, ¬(l.type = LayerKind.conv2d ∨ l.type = LayerKind.maxPool) := by
  induction ls with
  | nil => simp [checkOrderScan]
  | cons l ls ih =>
      by_cases hc : l.type = LayerKind.conv2d ∨ l.type = LayerKind.maxPool
      · have hsome : checkOrderScan true (l :: ls) = some convPoolMsg := by
          rcases hc with hc | hc <;> simp [checkOrderScan, hc]
        rw [hsome]
        constructor
        · intro h; exact absurd h (by simp)
        · intro hall; exact absurd hc (hall l (by simp))
      · have h1 : ¬l.type = LayerKind.conv2d := fun h => hc (Or.inl h)
        have h2 : ¬l.type = LayerKind.maxPool := fun h => hc (Or.inr h)
        have hstep : checkOrderScan true (l :: ls) = checkOrderScan true ls := by
          simp [checkOrderScan, h1, h2]
        rw [hstep, ih]
        constructor
        · intro h x hx
          rcases List.mem_cons.mp hx with rfl | hx'
          · exact hc
          · exact h x hx'
        · intro h x hx
          exact h x (List.mem_cons_of_mem l hx)

/-- The scanning loop of `validateNetwork` accepts iff no `Conv2D`/`MaxPool`
appears after a `Fully Connected` layer. -/
lemma checkOrderScan_false_none_iff (ls : List Layer) :
    checkOrderScan false ls = none ↔ noConvPoolAfterDense ls := by
  induction ls with
  | nil =>
      simp only [checkOrderScan, noConvPoolAfterDense]
      constructor
      · intro _ i j li lj _ hi _ _
        simp at hi
      · intro _; trivial
  | cons l ls ih =>
      have hstep : checkOrderScan false (l :: ls) =
          checkOrderScan (isDense l.type) ls := by
        simp [checkOrderScan]
      by_cases hd : l.type = LayerKind.dense
      · have hid : isDense l.type = true := by rw [hd]; rfl
        rw [hstep, hid, checkOrderScan_true_none_iff]
        constructor
        · intro hall i j li lj hij hi hj hdense
          cases j with
          | zero => omega
          | succ j' =>
              simp only [List.getElem?_cons_succ] at hj
              exact hall lj (List.getElem?_mem hj)
        · intro hR lj hlj
          obtain ⟨j', hj'⟩ := List.getElem?_of_mem hlj
          exact hR 0 (j' + 1) l lj (by omega) (by simp) (by simpa using hj') hd
      · have hnd : isDense l.type = false := by
          cases hl : l.type <;> first | rfl | (exact absurd hl hd)
        rw [hstep, hnd, ih]
        constructor
        · intro h i j li lj hij hi hj hdense
          cases i with
          | zero =>
              simp only [List.getElem?_cons_zero, Option.some.injEq] at hi
              subst hi
              exact absurd hdense hd
          | succ i' =>
              cases j with
              | zero => omega
              | succ j' =>
                  simp only [List.getElem?_cons_succ] at hi hj
                  exact h i' j' li lj (by omega) hi hj hdense
        · intro h i j li lj hij hi hj hdense
          exact h (i + 1) (j + 1) li lj (by omega) (by simpa using hi)
            (by simpa using hj) hdense

/-- C2: `validateNetwork` accepts (returns no error) iff the layer list is
non-empty, no `Conv2D`/`MaxPool` appears after a `Fully Connected` layer, and
the last layer is `Fully Connected` with `units = 10`; moreover, when the
final-layer rule is the one violated (wrong unit count), the rejection
message is the string naming the 10-unit class-count requirement. -/
theorem validateNetwork_accepts_iff (ls : List Layer) :
    (validateNetwork ls = none ↔
      (ls ≠ [] ∧ noConvPoolAfterDense ls ∧ lastIsDense10 ls)) ∧
    (∀ l, checkOrderScan false ls = none → ls.getLast? = some l →
      l.type = LayerKind.dense → l.defaultParams.units ≠ 10 →
      validateNetwork ls = some lastLayerMsg) := by
  constructor
  · by_cases hemp : ls.length = 0
    · have hnil : ls = [] := List.length_eq_zero.mp hemp
      subst hnil
      simp [validateNetwork]
    · have hne : ls ≠ [] := by
        intro h; exact hemp (by simp [h])
      cases hco : checkOrderScan false ls with
      | some m =>
          have hnncp : ¬noConvPoolAfterDense ls := by
            rw [← checkOrderScan_false_none_iff, hco]
            simp
          simp [validateNetwork, hemp, hco, hnncp]
      | none =>
          have hncp : noConvPoolAfterDense ls :=
            (checkOrderScan_false_none_iff ls).mp hco
          have hsome : ls.getLast?.isSome := List.getLast?_isSome.mpr hne
          obtain ⟨last, hlast⟩ := Option.isSome_iff_exists.mp hsome
          by_cases hok : last.type = LayerKind.dense ∧ last.defaultParams.units = 10
          · have hl10 : lastIsDense10 ls := ⟨last, hlast, hok.1, hok.2⟩
            simp [validateNetwork, hemp, hco, hlast, hok, hne, hncp, hl10]
          · have hnl10 : ¬lastIsDense10 ls := by
              rintro ⟨lx, hlx, hx1, hx2⟩
              rw [hlast] at hlx
              cases hlx
              exact hok ⟨hx1, hx2⟩
            simp [validateNetwork, hemp, hco, hlast, hok, hnl10]
  · intro l hco hlast htype hunits
    have hne : ¬ls.length = 0 := by
      intro h
      rw [List.length_eq_zero.mp h] at hlast
      simp at hlast
    have hnok : ¬(l.type = LayerKind.dense ∧ l.defaultParams.units = 10) := by
      rintro ⟨_, h2⟩; exact hunits h2
    simp [validateNetwork, hne, hco, hlast, hnok]

/-- Witness for C2: a single `Fully Connected` layer with 5 units is rejected
with the class-count message. -/
theorem validateNetwork_accepts_iff_witness :
    validateNetwork [dense5] = some lastLayerMsg :=
  (validateNetwork_accepts_iff [dense5]).2 dense5 rfl rfl rfl
    (by with_unfolding_all decide)

/-! ### Invariants of `validateLayerOrder` and the splice operation -/

/-- A `conv2d`/`conv1x1`/`maxpool` kind is also in the post-Dense reject set. -/
lemma spatial3_spatial4 {k : LayerKind} (h : isSpatial3 k = true) :
    isSpatial4 k = true := by
  cases k <;> first | rfl | exact absurd h (by simp [isSpatial3])

/-- A reducing kind is not `Fully Connected`/`Dropout`. -/
lemma denseOrDropout_not_reducing {k : LayerKind} (h : isDenseOrDropout k = true) :
    isReducing k = false := by
  cases k <;> first | rfl | exact absurd h (by simp [isDenseOrDropout])

/-- A reducing kind is not in the `conv2d`/`conv1x1`/`maxpool` set. -/
lemma reducing_not_spatial3 {k : LayerKind} (h : isReducing k = true) :
    isSpatial3 k = false := by
  cases k <;> first | rfl | exact absurd h (by simp [isReducing])

/-- Unfolding equation for the scan on a cons cell. -/
lemma layerOrderScan_cons (fc fl : Bool) (l : Layer) (ls : List Layer) :
    layerOrderScan fc fl (l :: ls) =
      if fc && isSpatial4 l.type then false
      else if fl && !(isDenseOrDropout l.type) then false
      else layerOrderScan (fc || isDense l.type) (fl || isReducing l.type) ls := rfl

/-- If the scan accepts a cons cell, the head passes both checks and the scan
accepts the tail with the updated flags. -/
lemma scan_step {fc fl : Bool} {l : Layer} {ls : List Layer}
    (h : layerOrderScan fc fl (l :: ls) = true) :
    (fc && isSpatial4 l.type) = false ∧
    (fl && !(isDenseOrDropout l.type)) = false ∧
    layerOrderScan (fc || isDense l.type) (fl || isReducing l.type) ls = true := by
  rw [layerOrderScan_cons] at h
  split at h
  next => exact absurd h (by simp)
  next hc1 =>
    split at h
    next => exact absurd h (by simp)
    next hc2 =>
      refine ⟨?_, ?_, h⟩
      · revert hc1; cases (fc && isSpatial4 l.type) <;> simp
      · revert hc2; cases (fl && !(isDenseOrDropout l.type)) <;> simp

/-- Once the `hasSeenFlatten` flag is set, an accepting scan forces every
remaining layer to be `Fully Connected` or `Dropout`. -/
lemma scan_fl_all (ls : List Layer) : ∀ (fc : Bool),
    layerOrderScan fc true ls = true → ∀ l ∈ ls, isDenseOrDropout l.type = true := by
  induction ls with
  | nil => intro fc _ l hl; simp at hl
  | cons l ls ih =>
      intro fc h x hx
      obtain ⟨h1, h2, h3⟩ := scan_step h
      rcases List.mem_cons.mp hx with rfl | hx'
      · simpa using h2
      · have h3' : layerOrderScan (fc || isDense l.type) true ls = true := by
          simpa using h3
        exact ih _ h3' x hx'

/-- Once the `hasSeenFC` flag is set, an accepting scan forces every remaining
layer to be outside the spatial reject set. -/
lemma scan_fc_all (ls : List Layer) : ∀ (fl : Bool),
    layerOrderScan true fl ls = true → ∀ l ∈ ls, isSpatial4 l.type = false := by
  induction ls with
  | nil => intro fl _ l hl; simp at hl
  | cons l ls ih =>
      intro fl h x hx
      obtain ⟨h1, h2, h3⟩ := scan_step h
      rcases List.mem_cons.mp hx with rfl | hx'
      · simpa using h1
      · have h3' : layerOrderScan true (fl || isReducing l.type) ls = true := by
          simpa using h3
        exact ih _ h3' x hx'

/-- In any list accepted by the scan, no `Fully Connected` layer is followed
by a layer of the spatial reject set. -/
lemma scan_dense_spatial (ls : List Layer) : ∀ (fc fl : Bool),
    layerOrderScan fc fl ls = true →
    ∀ (i j : ℕ) (li lj : Layer), i < j → ls[i]? = some li → ls[j]? = some lj →
      isDense li.type = true → isSpatial4 lj.type = false := by
  induction ls with
  | nil => intro fc fl _ i j li lj _ hi _ _; simp at hi
  | cons l ls ih =>
      intro fc fl h i j li lj hij hi hj hdense
      obtain ⟨h1, h2, h3⟩ := scan_step h
      cases j with
      | zero => omega
      | succ j' =>
          simp only [List.getElem?_cons_succ] at hj
          cases i with
          | zero =>
              simp only [List.getElem?_cons_zero, Option.some.injEq] at hi
              subst hi
              have hfc : (fc || isDense l.type) = true := by simp [hdense]
              rw [hfc] at h3
              exact scan_fc_all ls _ h3 lj (List.getElem?_mem hj)
          | succ i' =>
              simp only [List.getElem?_cons_succ] at hi
              exact ih _ _ h3 i' j' li lj (by omega) hi hj hdense

/-- In any list accepted by the scan, no reducing layer is followed by
another reducing layer. -/
lemma scan_reducing_pair (ls : List Layer) : ∀ (fc fl : Bool),
    layerOrderScan fc fl ls = true →
    ∀ (i j : ℕ) (li lj : Layer), i < j → ls[i]? = some li → ls[j]? = some lj →
      isReducing li.type = true → isReducing lj.type = false := by
  induction ls with
  | nil => intro fc fl _ i j li lj _ hi _ _; simp at hi
  | cons l ls ih =>
      intro fc fl h i j li lj hij hi hj hred
      obtain ⟨h1, h2, h3⟩ := scan_step h
      cases j with
      | zero => omega
      | succ j' =>
          simp only [List.getElem?_cons_succ] at hj
          cases i with
          | zero =>
              simp only [List.getElem?_cons_zero, Option.some.injEq] at hi
              subst hi
              have hfl : (fl || isReducing l.type) = true := by simp [hred]
              rw [hfl] at h3
              exact denseOrDropout_not_reducing
                (scan_fl_all ls _ h3 lj (List.getElem?_mem hj))
          | succ i' =>
              simp only [List.getElem?_cons_succ] at hi
              exact ih _ _ h3 i' j' li lj (by omega) hi hj hred

/-- `splice(0, 0, a)` prepends. -/
lemma spliceInsert_zero {α : Type} (ls : List α) (a : α) :
    spliceInsert ls 0 a = a :: ls := by
  cases ls <;> rfl

/-- Splicing a `Dropout` layer anywhere preserves acceptance by the scan. -/
lemma scan_insert_dropout : ∀ (idx : ℕ) (ls : List Layer) (fc fl : Bool) (d : Layer),
    d.type = LayerKind.dropout → layerOrderScan fc fl ls = true →
    layerOrderScan fc fl (spliceInsert ls idx d) = true := by
  intro idx
  induction idx with
  | zero =>
      intro ls fc fl d hd h
      rw [spliceInsert_zero, layerOrderScan_cons, hd]
      simpa [isSpatial4, isDenseOrDropout, isDense, isReducing] using h
  | succ n ih =>
      intro ls fc fl d hd h
      cases ls with
      | nil =>
          show layerOrderScan fc fl [d] = true
          rw [layerOrderScan_cons, hd]
          simp [isSpatial4, isDenseOrDropout, isDense, isReducing, layerOrderScan]
      | cons l ls' =>
          obtain ⟨h1, h2, h3⟩ := scan_step h
          show layerOrderScan fc fl (l :: spliceInsert ls' n d) = true
          rw [layerOrderScan_cons]
          simp only [h1, h2, if_false, Bool.false_eq_true, if_neg]
          exact ih ls' _ _ d hd h3

/-- Splicing leaves the elements before the insertion point in place. -/
lemma spliceInsert_getElem_lt {α : Type} : ∀ (ls : List α) (idx j : ℕ) (a x : α),
    j < idx → ls[j]? = some x → (spliceInsert ls idx a)[j]? = some x := by
  intro ls
  induction ls with
  | nil => intro idx j a x _ hx; simp at hx
  | cons l ls ih =>
      intro idx j a x hj hx
      cases idx with
      | zero => omega
      | succ n =>
          show (l :: spliceInsert ls n a)[j]? = some x
          cases j with
          | zero => simpa using hx
          | succ j' =>
              simp only [List.getElem?_cons_succ] at hx ⊢
              exact ih n j' a x (by omega) hx

/-- Splicing shifts the elements from the insertion point one to the right. -/
lemma spliceInsert_getElem_ge {α : Type} : ∀ (ls : List α) (idx j : ℕ) (a x : α),
    idx ≤ j → ls[j]? = some x → (spliceInsert ls idx a)[j + 1]? = some x := by
  intro ls
  induction ls with
  | nil => intro idx j a x _ hx; simp at hx
  | cons l ls ih =>
      intro idx j a x hij hx
      cases idx with
      | zero =>
          show (a :: l :: ls)[j + 1]? = some x
          simpa using hx
      | succ n =>
          cases j with
          | zero => omega
          | succ j' =>
              show (l :: spliceInsert ls n a)[j' + 1 + 1]? = some x
              simp only [List.getElem?_cons_succ] at hx ⊢
              exact ih n j' a x (by omega) hx

/-- The spliced element sits at position `min idx ls.length` (JavaScript
`splice` clamps an out-of-range index to the end). -/
lemma spliceInsert_getElem_self {α : Type} : ∀ (ls : List α) (idx : ℕ) (a : α),
    (spliceInsert ls idx a)[min idx ls.length]? = some a := by
  intro ls
  induction ls with
  | nil => intro idx a; cases idx <;> simp [spliceInsert]
  | cons l ls ih =>
      intro idx a
      cases idx with
      | zero => simp [spliceInsert]
      | succ n =>
          show (l :: spliceInsert ls n a)[min (n + 1) (l :: ls).length]? = some a
          rw [List.length_cons, Nat.succ_min_succ]
          simp only [List.getElem?_cons_succ]
          exact ih n a

/-! ### C3: spatial layers after a Dense layer -/

/-- Counterexample to C3 as stated: the current list `[Dense]` contains a
`Fully Connected` layer, yet the index-targeted insertion path accepts a
Conv2D candidate at position 0 (before the Dense layer). -/
theorem spatial_after_dense_cex :
    ([dense128].any fun l => isDense l.type) = true ∧
    canInsertAt [dense128] 0 conv2dDefault = true := ⟨rfl, rfl⟩

/-- C3 (amended): a `Conv2D`/`Conv1x1`/`MaxPool` candidate is always rejected
by the append path when a `Fully Connected` layer exists anywhere, and by the
index-targeted insertion path whenever the insertion position lies after some
`Fully Connected` layer.  The insertion path does not reject at every
position when a Dense layer exists: inserting Conv2D at position 0 into
`[Dense]` is accepted (see the counterexample). -/
theorem spatial_after_dense_amended :
    (∀ (layers : List Layer) (k : LayerKind),
      isSpatial3 k = true → (layers.any fun l => isDense l.type) = true →
      canAddAppend layers k = false) ∧
    (∀ (layers : List Layer) (idx : ℕ) (cand : Layer) (j : ℕ) (lj : Layer),
      isSpatial3 cand.type = true → layers[j]? = some lj →
      isDense lj.type = true → j < idx →
      canInsertAt layers idx cand = false) := by
  constructor
  · intro layers k hk hany
    simp [canAddAppend, hk, hany]
  · intro layers idx cand j lj hcand hj hdense hji
    cases hres : canInsertAt layers idx cand with
    | false => rfl
    | true =>
        exfalso
        have hscan : layerOrderScan false false (spliceInsert layers idx cand) = true :=
          hres
        obtain ⟨hlt, -⟩ := List.getElem?_eq_some_iff.mp hj
        have hmin : j < min idx layers.length := lt_min hji hlt
        have h1 : (spliceInsert layers idx cand)[j]? = some lj :=
          spliceInsert_getElem_lt layers idx j cand lj hji hj
        have h2 : (spliceInsert layers idx cand)[min idx layers.length]? = some cand :=
          spliceInsert_getElem_self layers idx cand
        have h3 := scan_dense_spatial _ _ _ hscan j (min idx layers.length) lj cand
          hmin h1 h2 hdense
        rw [spatial3_spatial4 hcand] at h3
        exact absurd h3 (by simp)

/-- Witness for the amended C3: appending Conv2D after `[Dense]` is rejected,
and inserting Conv2D at position 1 (after the Dense layer) is rejected. -/
theorem spatial_after_dense_amended_witness :
    canAddAppend [dense128] LayerKind.conv2d = false ∧
    canInsertAt [dense128] 1 conv2dDefault = false :=
  ⟨spatial_after_dense_amended.1 [dense128] LayerKind.conv2d rfl rfl,
   spatial_after_dense_amended.2 [dense128] 1 conv2dDefault 0 dense128 rfl rfl rfl
     Nat.zero_lt_one⟩

/-! ### C5: reducing layers (Flatten / GlobalAvgPool) -/

/-- Counterexample to C5 as stated: the index-targeted insertion path accepts
a `Flatten` candidate into the empty list (which contains no spatial layer)
and into `[Dense]` (which contains a `Fully Connected` layer). -/
theorem reducing_insertion_cex :
    canInsertAt [] 0 flattenDefault = true ∧
    (([] : List Layer).any fun l => isSpatial3 l.type) = false ∧
    canInsertAt [dense128] 0 flattenDefault = true ∧
    ([dense128].any fun l => isDense l.type) = true := ⟨rfl, rfl, rfl, rfl⟩

/-- C5 (amended): a second reducing layer is rejected at every position on
both paths; the "accept only when a spatial layer exists and no Dense layer
exists" half holds for the append path (where it is an exact
characterisation), but not for the index-targeted insertion path (see the
counterexample). -/
theorem reducing_insertion_amended :
    (∀ (layers : List Layer) (k : LayerKind),
      isReducing k = true → (layers.any fun l => isReducing l.type) = true →
      canAddAppend layers k = false) ∧
    (∀ (layers : List Layer) (idx : ℕ) (cand : Layer) (j : ℕ) (lj : Layer),
      isReducing cand.type = true → layers[j]? = some lj →
      isReducing lj.type = true →
      canInsertAt layers idx cand = false) ∧
    (∀ (layers : List Layer) (k : LayerKind), isReducing k = true →
      (canAddAppend layers k = true ↔
        ((layers.any fun l => isReducing l.type) = false ∧
         (layers.any fun l => isSpatial3 l.type) = true ∧
         (layers.any fun l => isDense l.type) = false))) := by
  refine ⟨?_, ?_, ?_⟩
  · intro layers k hk hany
    simp [canAddAppend, hk, hany]
  · intro layers idx cand j lj hcand hj hred
    cases hres : canInsertAt layers idx cand with
    | false => rfl
    | true =>
        exfalso
        have hscan : layerOrderScan false false (spliceInsert layers idx cand) = true :=
          hres
        obtain ⟨hlt, -⟩ := List.getElem?_eq_some_iff.mp hj
        have hself : (spliceInsert layers idx cand)[min idx layers.length]? = some cand :=
          spliceInsert_getElem_self layers idx cand
        by_cases hji : j < idx
        · have hmin : j < min idx layers.length := lt_min hji hlt
          have h1 : (spliceInsert layers idx cand)[j]? = some lj :=
            spliceInsert_getElem_lt layers idx j cand lj hji hj
          have h3 := scan_reducing_pair _ _ _ hscan j (min idx layers.length) lj cand
            hmin h1 hself hred
          rw [hcand] at h3
          exact absurd h3 (by simp)
        · have hij : idx ≤ j := by omega
          have hmin : min idx layers.length ≤ j := le_trans (min_le_left _ _) hij
          have h1 : (spliceInsert layers idx cand)[j + 1]? = some lj :=
            spliceInsert_getElem_ge layers idx j cand lj hij hj
          have h3 := scan_reducing_pair _ _ _ hscan (min idx layers.length) (j + 1)
            cand lj (by omega) hself h1 hcand
          rw [hred] at h3
          exact absurd h3 (by simp)
  · intro layers k hk
    have hs3 : isSpatial3 k = false := reducing_not_spatial3 hk
    simp [canAddAppend, hk, hs3, Bool.and_eq_true, Bool.not_eq_true']
    tauto

/-- Witness for the amended C5: a second reducing layer is rejected on both
paths, and the append path accepts `Flatten` after a Conv2D. -/
theorem reducing_insertion_amended_witness :
    canAddAppend [flattenDefault] LayerKind.globalAvgPool = false ∧
    canInsertAt [flattenDefault] 1 gapDefault = false ∧
    canAddAppend [conv2dDefault] LayerKind.flatten = true :=
  ⟨reducing_insertion_amended.1 [flattenDefault] LayerKind.globalAvgPool rfl rfl,
   reducing_insertion_amended.2.1 [flattenDefault] 1 gapDefault 0 flattenDefault
     rfl rfl rfl,
   (reducing_insertion_amended.2.2 [conv2dDefault] LayerKind.flatten rfl).mpr
     ⟨rfl, rfl, rfl⟩⟩

/-! ### C6: BatchNorm / Dropout / Dense are never rejected? -/

/-- Counterexample to C6 as stated: the index-targeted insertion path rejects
a `Batch Normalization` candidate placed after a `Flatten`, and rejects a
`Fully Connected` candidate placed before a `Conv2D`. -/
theorem unconstrained_kinds_cex :
    canInsertAt [conv2dDefault, flattenDefault] 2 batchNormDefault = false ∧
    canInsertAt [conv2dDefault] 0 dense128 = false := ⟨rfl, rfl⟩

/-- C6 (amended): the append path indeed never rejects `BatchNorm`,
`Dropout` or `Dense`; the index-targeted insertion path validates the whole
resulting list, so it can reject those kinds (see the counterexample), but a
`Dropout` candidate is always accepted there whenever the current list itself
passes `validateLayerOrder`. -/
theorem unconstrained_kinds_amended :
    (∀ layers : List Layer,
      canAddAppend layers LayerKind.batchNorm = true ∧
      canAddAppend layers LayerKind.dropout = true ∧
      canAddAppend layers LayerKind.dense = true) ∧
    (∀ (layers : List Layer) (idx : ℕ) (d : Layer), d.type = LayerKind.dropout →
      validateLayerOrder layers = true → canInsertAt layers idx d = true) := by
  constructor
  · intro layers
    exact ⟨rfl, rfl, rfl⟩
  · intro layers idx d hd h
    exact scan_insert_dropout idx layers false false d hd h

/-- Witness for the amended C6: appending BatchNorm to the empty list is
accepted, and inserting Dropout into the valid list `[Conv2D]` is accepted. -/
theorem unconstrained_kinds_amended_witness :
    canAddAppend [] LayerKind.batchNorm = true ∧
    canInsertAt [conv2dDefault] 1 dropoutDefault = true :=
  ⟨(unconstrained_kinds_amended.1 []).1,
   unconstrained_kinds_amended.2 [conv2dDefault] 1 dropoutDefault rfl rfl⟩

/-! ### C8: reorder regenerates ids (code bug) -/

/-- Updating only the `id` field of every element leaves the `(type, params)`
projection of the list unchanged. -/
lemma map_enumFrom_id_update (F : ℕ → Layer → String) :
    ∀ (n : ℕ) (l : List Layer),
      ((List.enumFrom n l).map (fun p => { p.snd with id := F p.fst p.snd })).map
          (fun x => (x.type, x.defaultParams)) =
        l.map (fun x => (x.type, x.defaultParams)) := by
  intro n l
  induction l generalizing n with
  | nil => rfl
  | cons x xs ih => simp [List.enumFrom, ih]

/-- First element of the reorder test list. -/
def reorderL0 : Layer :=
  ⟨"conv2d-100", .conv2d, { filters := 32, kernelSize := 3, stride := 1, padding := 1 }⟩

/-- Second element of the reorder test list. -/
def reorderL1 : Layer := ⟨"maxpool-101", .maxPool, { poolSize := 2, stride := 2 }⟩

/-- C8 (code bug): `handleDragEnd` does perform exactly the move permutation on
the `(type, params)` projection — but it regenerates every descriptor's `id`
as `` `${prefixOfOldId}-${Date.now()}-${index}` ``, so the ids are *not*
preserved: moving the first of two layers to position 1 at time 500 yields
ids `"maxpool-500-0"` and `"conv2d-500-1"`, neither of which is the
descriptor's original id. -/
theorem reorder_regenerates_ids :
    (∀ (layers : List Layer) (src dst now : ℕ) (item : Layer),
      layers.get? src = some item →
      (handleDragEnd layers src dst now).map (fun x => (x.type, x.defaultParams)) =
        (spliceInsert (removeIdx layers src) dst item).map
          (fun x => (x.type, x.defaultParams))) ∧
    handleDragEnd [reorderL0, reorderL1] 0 1 500 =
      [⟨"maxpool-500-0", .maxPool, { poolSize := 2, stride := 2 }⟩,
       ⟨"conv2d-500-1", .conv2d,
        { filters := 32, kernelSize := 3, stride := 1, padding := 1 }⟩] ∧
    "maxpool-500-0" ≠ reorderL1.id ∧ "conv2d-500-1" ≠ reorderL0.id := by
  refine ⟨?_, ?_, ?_, ?_⟩
  · intro layers src dst now item hsrc
    unfold handleDragEnd
    rw [hsrc]
    dsimp only [List.enum]
    exact map_enumFrom_id_update
      (fun i x => idStem x.id ++ "-" ++ toString now ++ "-" ++ toString i) 0
      (spliceInsert (removeIdx layers src) dst item)
  · with_unfolding_all rfl
  · with_unfolding_all decide
  · with_unfolding_all decide

/-- Witness for C8: the frame part of `reorder_regenerates_ids` applied at the
concrete two-element list, hypothesis discharged. -/
theorem reorder_regenerates_ids_witness :
    (handleDragEnd [reorderL0, reorderL1] 0 1 500).map
        (fun x => (x.type, x.defaultParams)) =
      (spliceInsert (removeIdx [reorderL0, reorderL1] 0) 1 reorderL0).map
        (fun x => (x.type, x.defaultParams)) :=
  reorder_regenerates_ids.1 [reorderL0, reorderL1] 0 1 500 reorderL0 rfl
